import Mathlib

/-!
Verification of the incident-report extraction core
(`src/extractors/base_extractor.py`, `src/extractors/petsud.py`,
`src/transformation/coordinates.py`) against its natural-language
specification.  Python strings are modelled as `List Char`, Python floats
as `ℚ`, `None` as `Option.none`, and a raised exception as the `.error`
side of `Except`.  The fragment of Python's `re` module that the code
uses (character classes, greedy `*`/`+`/`?` over single characters,
literals and non-nested capture groups, `re.match` and leftmost
`re.search`) is given an executable backtracking semantics below.
-/

/-! ## Python character and string primitives -/

/-- ASCII whitespace: the characters matched by the regex class `\s`
(and stripped by `str.strip`) on the ASCII texts this codebase handles. -/
def isPyWs (c : Char) : Bool :=
  c = ' ' || c = '\t' || c = '\n' || c = '\r' || c = Char.ofNat 11 || c = Char.ofNat 12

/-- ASCII decimal digit, the regex class `\d` on these texts. -/
def isPyDigit (c : Char) : Bool := '0' ≤ c && c ≤ '9'

/-- Python `str.strip()`: drop whitespace from both ends. -/
def pyStrip (s : List Char) : List Char :=
  ((s.dropWhile isPyWs).reverse.dropWhile isPyWs).reverse

/-- Helper for `collapseRuns`: the flag records whether the previous
character belonged to a whitespace run already emitted as one space. -/
def collapseRunsAux : Bool → List Char → List Char
  | _, [] => []
  | inWs, c :: r =>
    if isPyWs c then
      if inWs then collapseRunsAux true r else ' ' :: collapseRunsAux true r
    else c :: collapseRunsAux false r

/-- Python `re.sub(r'\s+', ' ', s)`: replace every whitespace run by one space. -/
def collapseRuns (s : List Char) : List Char := collapseRunsAux false s

/-- Numeric value of a digit character. -/
def digitVal (c : Char) : Nat := c.toNat - 48

/-- Value of a string of decimal digits (0 for the empty string). -/
def natOfDigits (l : List Char) : Nat := l.foldl (fun a c => 10 * a + digitVal c) 0

/-- Python `float()` restricted to the comma-free strings the numeric capture
groups of this codebase can produce (classes `\d`, `[\d.]`, `[\d.,]` after the
comma-to-dot replacement): an optional integer part, at most one dot, at
least one digit overall.  Any other shape raises `ValueError`, modelled as
`none`.  (Signs, exponents, `inf`/`nan` and underscores cannot occur in
those captures.) -/
def pyFloat (s : List Char) : Option ℚ :=
  if s ≠ [] ∧ s.all (fun c => isPyDigit c || c = '.')
      ∧ (s.filter (fun c => c = '.')).length ≤ 1
      ∧ 1 ≤ (s.filter isPyDigit).length then
    some ((natOfDigits (s.takeWhile (fun c => c ≠ '.')) : ℚ) +
      (natOfDigits ((s.dropWhile (fun c => c ≠ '.')).drop 1) : ℚ) /
        (10 : ℚ) ^ ((s.dropWhile (fun c => c ≠ '.')).drop 1).length)
  else none

/-- Python `round(x, 6)`, modelled as decimal rounding at six places on `ℚ`
(the codebase's values are far from the binary-float tie cases where
`round`'s half-even rule could differ). -/
def round6 (q : ℚ) : ℚ := (round (q * 1000000) : ℤ) / 1000000

/-- ASCII `str.upper()` on a single character. -/
def pyUpperChar (c : Char) : Char :=
  if 'a' ≤ c && c ≤ 'z' then Char.ofNat (c.toNat - 32) else c

/-- ASCII `str.upper()`. -/
def pyUpper (s : List Char) : List Char := s.map pyUpperChar

/-- ASCII `str.lower()` on a single character (for `re.IGNORECASE`). -/
def pyLowerChar (c : Char) : Char :=
  if 'A' ≤ c && c ≤ 'Z' then Char.ofNat (c.toNat + 32) else c

/-- `str.splitlines()` on newline characters, up to trailing-empty-segment
behaviour; the caller (`_extract_coord_raw`) filters empty lines, so the
difference is unobservable there. -/
def splitLines (s : List Char) : List (List Char) :=
  match s with
  | [] => [[]]
  | c :: r =>
    if c = '\n' ∨ c = '\r' then [] :: splitLines r
    else
      match splitLines r with
      | h :: t => (c :: h) :: t
      | [] => [[c]]

/-- `' '.join(parts)`. -/
def joinSp (parts : List (List Char)) : List Char := List.intercalate [' '] parts

/-! ## A backtracking semantics for the regex fragment the code uses -/

/-- One regex token: a literal character, an optional literal (`c?`), a
single-character class, or a greedy `*` / `+` over a class. -/
inductive Tok where
  | lit (c : Char)
  | opt (c : Char)
  | cls (p : Char → Bool)
  | star (p : Char → Bool)
  | plus (p : Char → Bool)

/-- A pattern item: a plain token or a capture group of tokens (the
patterns in this codebase never nest groups). -/
inductive Item where
  | tok (t : Tok)
  | grp (ts : List Tok)

/-- Literal-character comparison under an optional `re.IGNORECASE`. -/
def litMatch (ci : Bool) (c x : Char) : Bool :=
  if ci then pyLowerChar c = pyLowerChar x else c = x

/-- Rests after a greedy `p*`, longest consumption first. -/
def starSplits (p : Char → Bool) (s : List Char) : List (List Char) :=
  (List.range ((s.takeWhile p).length + 1)).map (fun i => s.drop ((s.takeWhile p).length - i))

/-- Rests after a greedy `p+`, longest consumption first. -/
def plusSplits (p : Char → Bool) (s : List Char) : List (List Char) :=
  (List.range (s.takeWhile p).length).map (fun i => s.drop ((s.takeWhile p).length - i))

/-- All ways one token can consume a prefix of `s`, in the order a
backtracking engine tries them (greedy first). -/
def tokStep (ci : Bool) : Tok → List Char → List (List Char)
  | .lit c, x :: r => if litMatch ci c x then [r] else []
  | .lit _, [] => []
  | .opt c, x :: r => if litMatch ci c x then [r, x :: r] else [x :: r]
  | .opt _, [] => [[]]
  | .cls p, x :: r => if p x then [r] else []
  | .cls _, [] => []
  | .star p, s => starSplits p s
  | .plus p, s => plusSplits p s

/-- All rests after a token list, in backtracking order. -/
def toksStep (ci : Bool) : List Tok → List Char → List (List Char)
  | [], s => [s]
  | t :: ts, s => (tokStep ci t s).flatMap (toksStep ci ts)

/-- All (rest, captured groups) after an item list, in backtracking order. -/
def itemsStep (ci : Bool) : List Item → List Char → List (List Char × List (List Char))
  | [], s => [(s, [])]
  | .tok t :: is, s => (tokStep ci t s).flatMap (itemsStep ci is)
  | .grp ts :: is, s =>
    (toksStep ci ts s).flatMap (fun r =>
      (itemsStep ci is r).map (fun pr => (pr.1, s.take (s.length - r.length) :: pr.2)))

/-- `re.match` anchored at the start of `s`: the first branch a
backtracking engine finds, as (rest, groups). -/
def reMatchAt (ci : Bool) (pat : List Item) (s : List Char) :
    Option (List Char × List (List Char)) :=
  (itemsStep ci pat s).head?

/-- A successful `re.search`: start index, matched span, capture groups. -/
structure ReMatch where
  start : Nat
  matched : List Char
  groups : List (List Char)
deriving DecidableEq, Repr

/-- End index of a match (`m.end()`). -/
def ReMatch.endPos (m : ReMatch) : Nat := m.start + m.matched.length

/-- `re.search`: try each start position left to right. -/
def reSearch (ci : Bool) (pat : List Item) (s : List Char) : Option ReMatch :=
  (List.range (s.length + 1)).findSome? (fun i =>
    (reMatchAt ci pat (s.drop i)).map (fun pr =>
      ⟨i, (s.drop i).take ((s.drop i).length - pr.1.length), pr.2⟩))

/-- Transcription helper: a literal word as a token list. -/
def lits (w : String) : List Tok := w.data.map Tok.lit

/-- Transcription helper: literal word items. -/
def litsI (w : String) : List Item := w.data.map (fun c => Item.tok (Tok.lit c))

/-! ## `src/extractors/base_extractor.py` -/

/-- Regional bounding box (Mendoza, WGS84): `LAT_MIN, LAT_MAX = -39.0, -32.0`. -/
def LAT_MIN : ℚ := -39
def LAT_MAX : ℚ := -32
/-- `LON_MIN, LON_MAX = -70.0, -67.0`. -/
def LON_MIN : ℚ := -70
def LON_MAX : ℚ := -67

/-- `BaseExtractor.validate_coordinates`: `None` in either slot is invalid,
otherwise the inclusive regional bounding-box check. -/
def validate_coordinates (lat lon : Option ℚ) : Bool :=
  match lat, lon with
  | some a, some b =>
    decide (LAT_MIN ≤ a ∧ a ≤ LAT_MAX ∧ LON_MIN ≤ b ∧ b ≤ LON_MAX)
  | _, _ => false

/-- The fields of the extracted record that `validate_data` reads. -/
structure IncidentRecord where
  NUM_INC : Option String := none
  Y_COORD : Option ℚ := none
  X_COORD : Option ℚ := none
  VOL_D_m3 : Option ℚ := none
  VOL_R_m3 : Option ℚ := none
deriving DecidableEq, Repr

/-- The effective `BaseExtractor.validate_data` (the in-class definition;
the module-level duplicate at the end of the file is never bound to the
class).  On invalid coordinates its `logger.error` f-string evaluates the
undefined name `loat`, so the branch raises `NameError` instead of
returning `False`; the recovered-vs-spilled comparison only feeds a
warning and never changes the result. -/
def validate_data (data : IncidentRecord) : Except String Bool :=
  if ¬ validate_coordinates data.Y_COORD data.X_COORD then
    .error "NameError: name loat is not defined"
  else
    let vol_d := data.VOL_D_m3.getD 0
    let vol_r := data.VOL_R_m3.getD 0
    let _warn := decide (vol_d < vol_r)
    .ok true

/-- `BaseExtractor.inferir_magnitud` (the magnitude-inference fallback). -/
def inferir_magnitud (vol_m3 : Option ℚ) (ppm : Option ℚ := none) : String :=
  match vol_m3 with
  | none => "No determinado"
  | some v =>
    match ppm with
    | none => if 5 < v then "Mayor" else "Menor"
    | some p =>
      if 50 < p then (if 5 < v then "Mayor" else "Menor")
      else (if 10 < v then "Mayor" else "Menor")

/-- `BaseExtractor._find` (the effective, second in-class definition —
identical in behaviour to the first): search, return the requested group
stripped, fall back to the full match on `IndexError`, `None` on no match. -/
def pyFind (pattern : List Item) (text : List Char) (group : Nat := 1)
    (ci : Bool := true) : Option (List Char) :=
  match reSearch ci pattern text with
  | none => none
  | some m =>
    match (if group = 0 then some m.matched else m.groups[group - 1]?) with
    | some g => some (pyStrip g)
    | none => some (pyStrip m.matched)

/-- `raw.replace(',', '.')`. -/
def commaToDot (s : List Char) : List Char :=
  s.map (fun c => if c = ',' then '.' else c)

/-- `BaseExtractor._find_float`: `_find`, comma-to-dot, then `float()`
with `ValueError` mapped to `None`. -/
def pyFindFloat (pattern : List Item) (text : List Char) (group : Nat := 1)
    (ci : Bool := true) : Option ℚ :=
  match pyFind pattern text group ci with
  | none => none
  | some raw => pyFloat (commaToDot raw)

/-! ### Date normalization (`normalize_date` and Python `strptime`) -/

/-- Day count of a month, with the Gregorian leap rule (what `datetime`
validates the parsed day against). -/
def daysInMonth (y m : Nat) : Nat :=
  if m = 2 then (if y % 4 = 0 ∧ (y % 100 ≠ 0 ∨ y % 400 = 0) then 29 else 28)
  else if m = 4 ∨ m = 6 ∨ m = 9 ∨ m = 11 then 30 else 31

/-- `datetime(year, month, day)` construction: year at least `MINYEAR = 1`
and the day within the month (month range and day at least 1 are already
guaranteed by the field patterns). -/
def checkDate (d m y : Nat) : Option (Nat × Nat × Nat) :=
  if 1 ≤ y ∧ d ≤ daysInMonth y m then some (d, m, y) else none

/-- A `%d` or `%m` field: one or two digits, value between 1 and `maxv`
(CPython compiles `%d` to `3[01]|[12]\d|0[1-9]|[1-9]` and `%m` to
`1[0-2]|0[1-9]|[1-9]`; against a following non-digit separator this is
exactly a one- or two-digit run with a nonzero value in range). -/
def parseField2 (maxv : Nat) (s : List Char) : Option (Nat × List Char) :=
  let ds := s.takeWhile isPyDigit
  let r := s.dropWhile isPyDigit
  if ds.length = 1 ∨ ds.length = 2 then
    let v := natOfDigits ds
    if 1 ≤ v ∧ v ≤ maxv then some (v, r) else none
  else none

/-- A literal separator character. -/
def parseSep (c : Char) : List Char → Option (List Char)
  | x :: r => if x = c then some r else none
  | [] => none

/-- `%Y`: exactly four digits. -/
def parseYear4 (s : List Char) : Option (Nat × List Char) :=
  let ds := s.takeWhile isPyDigit
  let r := s.dropWhile isPyDigit
  if ds.length = 4 then some (natOfDigits ds, r) else none

/-- `%y`: exactly two digits, CPython century rule (00-68 maps to 20xx,
69-99 to 19xx). -/
def parseYear2 (s : List Char) : Option (Nat × List Char) :=
  let ds := s.takeWhile isPyDigit
  let r := s.dropWhile isPyDigit
  if ds.length = 2 then
    let v := natOfDigits ds
    some ((if v ≤ 68 then 2000 + v else 1900 + v), r)
  else none

/-- `datetime.strptime(s, "%d<sep>%m<sep>%Y")` (four-digit year) or
`"%d<sep>%m<sep>%y"` (two-digit year), full-string match. -/
def strptimeDMY (sep : Char) (y4 : Bool) (s : List Char) : Option (Nat × Nat × Nat) :=
  match parseField2 31 s with
  | none => none
  | some (d, r1) =>
  match parseSep sep r1 with
  | none => none
  | some r2 =>
  match parseField2 12 r2 with
  | none => none
  | some (m, r3) =>
  match parseSep sep r3 with
  | none => none
  | some r4 =>
  match (if y4 then parseYear4 r4 else parseYear2 r4) with
  | none => none
  | some (y, r5) => if r5 = [] then checkDate d m y else none

/-- `datetime.strptime(s, "%Y-%m-%d")`, full-string match. -/
def strptimeISO (s : List Char) : Option (Nat × Nat × Nat) :=
  match parseYear4 s with
  | none => none
  | some (y, r1) =>
  match parseSep '-' r1 with
  | none => none
  | some r2 =>
  match parseField2 12 r2 with
  | none => none
  | some (m, r3) =>
  match parseSep '-' r3 with
  | none => none
  | some r4 =>
  match parseField2 31 r4 with
  | none => none
  | some (d, r5) => if r5 = [] then checkDate d m y else none

/-- The five supported date shapes, in the order of
`BaseExtractor.DATE_FORMATS`. -/
inductive DateFmt where
  | dmySlash4 | dmySlash2 | dmyDash4 | dmyDash2 | iso
deriving DecidableEq, Repr

/-- `datetime.strptime` at one of the five formats. -/
def pyStrptime : DateFmt → List Char → Option (Nat × Nat × Nat)
  | .dmySlash4 => strptimeDMY '/' true
  | .dmySlash2 => strptimeDMY '/' false
  | .dmyDash4 => strptimeDMY '-' true
  | .dmyDash2 => strptimeDMY '-' false
  | .iso => strptimeISO

/-- `BaseExtractor.DATE_FORMATS`. -/
def DATE_FORMATS : List DateFmt :=
  [.dmySlash4, .dmySlash2, .dmyDash4, .dmyDash2, .iso]

/-- Two-digit zero padding (`strftime` `%d` / `%m`). -/
def pad2 (n : Nat) : String := if n < 10 then "0" ++ toString n else toString n

/-- `dt.strftime("%d-%m-%Y")`. -/
def renderDMY : Nat × Nat × Nat → String
  | (d, m, y) => pad2 d ++ "-" ++ pad2 m ++ "-" ++ toString y

/-- The effective `BaseExtractor.normalize_date`: `None` passes through,
otherwise strip once, try `DATE_FORMATS` in order, render the first
success; every `ValueError` is caught, an exhausted loop returns `None`. -/
def normalize_date (raw : Option String) : Option String :=
  match raw with
  | none => none
  | some s =>
    let t := pyStrip s.data
    DATE_FORMATS.findSome? (fun fmt => (pyStrptime fmt t).map renderDMY)

/-- Modelled from the spec's words (the `normalize_date` contract in
section 4.2): `None` maps to `None`; otherwise trim and attempt, in this
fixed order, `dd/mm/yyyy`, `dd/mm/yy`, `dd-mm-yyyy`, `dd-mm-yy`,
`yyyy-mm-dd`; the first successful parse is rendered as `dd-mm-yyyy`;
anything else yields `None`.  Written for comparison with the code's
`normalize_date`. -/
def normalizeDateSpecModel (raw : Option String) : Option String :=
  match raw with
  | none => none
  | some s =>
    let t := pyStrip s.data
    match (pyStrptime .dmySlash4 t).map renderDMY with
    | some r => some r
    | none =>
    match (pyStrptime .dmySlash2 t).map renderDMY with
    | some r => some r
    | none =>
    match (pyStrptime .dmyDash4 t).map renderDMY with
    | some r => some r
    | none =>
    match (pyStrptime .dmyDash2 t).map renderDMY with
    | some r => some r
    | none => (pyStrptime .iso t).map renderDMY

/-! ### DMS coordinate conversion -/

/-- `BaseExtractor.dms_to_dd`: degrees + minutes/60 + seconds/3600, negated
for hemisphere `S` or `W` (the default hemisphere is `"S"`), rounded to six
decimals. -/
def dms_to_dd (degrees minutes : ℚ) (seconds : ℚ := 0)
    (hemisphere : List Char := ['S']) : ℚ :=
  let dd := degrees + minutes / 60 + seconds / 3600
  round6 (if pyUpper hemisphere = ['S'] ∨ pyUpper hemisphere = ['W'] then -dd else dd)

/-- Minute-symbol variants collapsed to an ASCII apostrophe by
`_normalize_dms_symbols` (acute accent, prime, curly single quotes,
modifier apostrophe). -/
def isMinuteSym (c : Char) : Bool :=
  c = '´' || c = '′' || c = '‘' || c = '’' || c = Char.ofNat 0x02BC

/-- Double-quote / double-prime variants collapsed to an ASCII `"`. -/
def isSecondSym (c : Char) : Bool :=
  c = '″' || c = '“' || c = '”'

/-- Two consecutive apostrophes / primes / acute accents collapse to one
`"` (the regex `'{2}|′{2}|´{2}`, substituted left to right without
overlap). -/
def fixDoubled : List Char → List Char
  | c1 :: c2 :: r =>
    if (c1 = '\'' ∧ c2 = '\'') ∨ (c1 = '′' ∧ c2 = '′') ∨ (c1 = '´' ∧ c2 = '´') then
      '"' :: fixDoubled r
    else c1 :: fixDoubled (c2 :: r)
  | s => s

/-- `re.sub(r'(\d),(\d)', r'\1.\2', s)`: a comma between two digits becomes
a dot; matches are consumed left to right without overlap. -/
def fixComma : List Char → List Char
  | a :: ',' :: b :: r =>
    if isPyDigit a ∧ isPyDigit b then a :: '.' :: b :: fixComma r
    else a :: fixComma (',' :: b :: r)
  | c :: r => c :: fixComma r
  | [] => []

/-- `BaseExtractor._normalize_dms_symbols`: minute symbols, then second
symbols, then doubled apostrophes, then decimal commas. -/
def normalizeDmsSymbols (s : List Char) : List Char :=
  fixComma (fixDoubled ((s.map (fun c => if isMinuteSym c then '\'' else c)).map
    (fun c => if isSecondSym c then '"' else c)))

/-- `[\d.]`. -/
def isDigitDot (c : Char) : Bool := isPyDigit c || c = '.'

/-- `[\d.,]`. -/
def isDigitDotComma (c : Char) : Bool := isPyDigit c || c = '.' || c = ','

/-- `[°º]` (degree sign or masculine ordinal). -/
def isDegSym (c : Char) : Bool := c = '°' || c = 'º'

/-- `\s*` as a pattern item. -/
def wsStar : Item := .tok (.star isPyWs)

/-- Shape (a) of `parse_dms_string`:
`(\d+)\s*°\s*(\d+)\s*'\s*([\d.]+)\s*\"?`. -/
def dmsPatFull : List Item :=
  [.grp [.plus isPyDigit], wsStar, .tok (.lit '°'), wsStar,
   .grp [.plus isPyDigit], wsStar, .tok (.lit '\''), wsStar,
   .grp [.plus isDigitDot], wsStar, .tok (.opt '"')]

/-- Shape (b): `(\d+)\s*°\s*([\d.]+)\s*'` (degrees and decimal minutes). -/
def dmsPatDecMin : List Item :=
  [.grp [.plus isPyDigit], wsStar, .tok (.lit '°'), wsStar,
   .grp [.plus isDigitDot], wsStar, .tok (.lit '\'')]

/-- Shape (c): `(\d+)\s*°\s*/?\s*(\d+\.?\d*)\s*'\s*/?\s*([\d.]+)`
(slash-separated). -/
def dmsPatSlash : List Item :=
  [.grp [.plus isPyDigit], wsStar, .tok (.lit '°'), wsStar,
   .tok (.opt '/'), wsStar,
   .grp [.plus isPyDigit, .opt '.', .star isPyDigit], wsStar,
   .tok (.lit '\''), wsStar, .tok (.opt '/'), wsStar,
   .grp [.plus isDigitDot]]

/-- `float()` on the three captures of a degrees/minutes/seconds shape and
the call `dms_to_dd(deg, mins, secs)` (hemisphere left at its `"S"`
default).  A `ValueError` from `float()` propagates (`.error`); the
patterns always produce exactly three groups, so the final catch-all is
unreachable. -/
def dmsOfCaps3 (caps : List (List Char)) : Except Unit (Option ℚ) :=
  match caps with
  | [g1, g2, g3] =>
    match pyFloat g1, pyFloat g2, pyFloat g3 with
    | some d, some m, some s => .ok (some (dms_to_dd d m s))
    | _, _, _ => .error ()
  | _ => .error ()

/-- `float()` on the two captures of the decimal-minutes shape and
`dms_to_dd(deg, mins)` (seconds 0, hemisphere `"S"`). -/
def dmsOfCaps2 (caps : List (List Char)) : Except Unit (Option ℚ) :=
  match caps with
  | [g1, g2] =>
    match pyFloat g1, pyFloat g2 with
    | some d, some m => .ok (some (dms_to_dd d m))
    | _, _ => .error ()
  | _ => .error ()

/-- The effective `BaseExtractor.parse_dms_string`: `None` passes through;
otherwise collapse whitespace, normalize DMS symbols, and try the three
anchored shapes in order; no match returns `None` (with a logged
warning). -/
def parse_dms_string (raw : Option String) : Except Unit (Option ℚ) :=
  match raw with
  | none => .ok none
  | some str =>
    let normalized := normalizeDmsSymbols (collapseRuns (pyStrip str.data))
    match reMatchAt false dmsPatFull normalized with
    | some pr => dmsOfCaps3 pr.2
    | none =>
    match reMatchAt false dmsPatDecMin normalized with
    | some pr => dmsOfCaps2 pr.2
    | none =>
    match reMatchAt false dmsPatSlash normalized with
    | some pr => dmsOfCaps3 pr.2
    | none => .ok none

/-! ## `src/transformation/coordinates.py` -/

/-- `_detect_utm_zone`: `int((lon + 180) / 6) + 1`; within the global
bounds enforced by the caller the argument is nonnegative, so Python's
truncation is the floor. -/
def _detect_utm_zone (lon : ℚ) : ℤ := ⌊(lon + 180) / 6⌋ + 1

/-- `transform_to_cartesian`: `ValueError` on a `None` coordinate, then
`ValueError` outside the global bounds, then the UTM zone is computed and
the conversion is delegated to a backend (`pyproj` when importable,
otherwise the closed-form `_transform_manual`); both backends are total
real-arithmetic functions of (lat, lon, zone), abstracted here as a
parameter. -/
def transform_to_cartesian (backend : ℚ → ℚ → ℤ → ℚ × ℚ)
    (lat lon : Option ℚ) : Except String (ℚ × ℚ) :=
  match lat, lon with
  | some la, some lo =>
    if ¬(-90 ≤ la ∧ la ≤ 90 ∧ -180 ≤ lo ∧ lo ≤ 180) then
      .error "ValueError: Coordenadas fuera de rango global"
    else
      .ok (backend la lo (_detect_utm_zone lo))
  | _, _ => .error "ValueError: Las coordenadas no pueden ser None."

/-! ## `src/extractors/petsud.py` -/

/-- Case-insensitive prefix test (used to model searching for a literal
alternative of `_STOP_FIELD`). -/
def startsWithCI : List Char → List Char → Bool
  | [], _ => true
  | _ :: _, [] => false
  | a :: w, b :: t => pyLowerChar a = pyLowerChar b && startsWithCI w t

/-- Case-insensitive substring containment: `re.search` of a literal word
under `re.IGNORECASE` succeeds exactly when the word occurs as a
substring. -/
def containsCI (w s : List Char) : Bool :=
  (List.range (s.length + 1)).any (fun i => startsWithCI w (s.drop i))

/-- The alternatives of `PetSudExtractor._STOP_FIELD`. -/
def STOP_FIELD_WORDS : List String :=
  ["Coordenadas", "Concentraci", "Volumen", "rea", "Medidas", "Suelo",
   "Fecha", "Hora", "Operador", "Tipo", "Subtipo", "Magnitud", "Descripci"]

/-- `self._STOP_FIELD.search(line)` as a Boolean: some alternative occurs
in the line (case-insensitively). -/
def stopFieldSearch (line : List Char) : Bool :=
  STOP_FIELD_WORDS.any (fun w => containsCI w.data line)

/-- The pattern `\d+\s*[°º]`. -/
def degDigitPat : List Item :=
  [.tok (.plus isPyDigit), wsStar, .tok (.cls isDegSym)]

/-- `re.search(r'\d+\s*[°º]', s)` as a Boolean. -/
def hasDegDigit (s : List Char) : Bool := (reSearch false degDigitPat s).isSome

/-- The shape `_is_dms_complete` searches for:
`\d+\s*°\s*\d+\s*'\s*[\d.]+\s*"?`. -/
def dmsCompletePat : List Item :=
  [.tok (.plus isPyDigit), wsStar, .tok (.lit '°'), wsStar,
   .tok (.plus isPyDigit), wsStar, .tok (.lit '\''), wsStar,
   .tok (.plus isDigitDot), wsStar, .tok (.opt '"')]

/-- `PetSudExtractor._is_dms_complete`: collapse whitespace runs (without
stripping), normalize DMS symbols, and look for a full
degrees-minutes-seconds shape. -/
def isDmsComplete (s : List Char) : Bool :=
  (reSearch false dmsCompletePat (normalizeDmsSymbols (collapseRuns s))).isSome

/-- The characters kept by the filter
`re.sub(r'[^\d°º\'\".,′″´´′\s]', '', combined)`. -/
def isDmsAllowed (c : Char) : Bool :=
  isPyDigit c || c = '°' || c = 'º' || c = '\'' || c = '"' || c = '.' ||
  c = ',' || c = '′' || c = '″' || c = '´' || isPyWs c

/-- The line-accumulation loop of `_extract_coord_raw`: stop before a line
that looks like another field's label (unless it carries a degree digit),
otherwise collect the line and stop once the accumulated text is a
complete DMS value. -/
def collectCoordLines : List (List Char) → List (List Char) → List (List Char)
  | [], acc => acc
  | l :: rest, acc =>
    if stopFieldSearch l ∧ ¬ hasDegDigit l then acc
    else
      let acc2 := acc ++ [l]
      if isDmsComplete (joinSp acc2) then acc2
      else collectCoordLines rest acc2

/-- `PetSudExtractor._extract_coord_raw`: find the label, take a
150-character window after it, accumulate stripped nonempty lines, keep
only DMS-legal characters, and require a degree digit in the result. -/
def extractCoordRaw (labelPat : List Item) (text : List Char) : Option (List Char) :=
  match reSearch true labelPat text with
  | none => none
  | some m =>
    let window := (text.drop m.endPos).take 150
    let lines := ((splitLines window).map pyStrip).filter (fun l => l ≠ [])
    let combined := joinSp (collectCoordLines lines [])
    let clean := combined.filter isDmsAllowed
    let result := pyStrip clean
    if ¬ hasDegDigit result then none
    else if result = [] then none
    else some result

/-- `PetSudExtractor._parse_and_negate`: `None` stays `None`, a parse
failure stays `None`, a parsed value is forced negative with `-abs(dd)`
(a `ValueError` from `float()` would propagate). -/
def parseAndNegate (raw : Option (List Char)) : Except Unit (Option ℚ) :=
  match raw with
  | none => .ok none
  | some r =>
    match parse_dms_string (some (String.mk r)) with
    | .error e => .error e
    | .ok none => .ok none
    | .ok (some dd) => .ok (some (-|dd|))

/-- `N[°º]\s*DE\s*COMUNICADO\s+(\d+)`. -/
def numIncPat : List Item :=
  [.tok (.lit 'N'), .tok (.cls isDegSym), wsStar] ++ litsI "DE" ++ [wsStar] ++
  litsI "COMUNICADO" ++ [.tok (.plus isPyWs), .grp [.plus isPyDigit]]

/-- `Coordenadas x\s*\(latitud\s*-\s*S\)`. -/
def latLabelPat : List Item :=
  litsI "Coordenadas x" ++ [wsStar, .tok (.lit '(')] ++ litsI "latitud" ++
  [wsStar, .tok (.lit '-'), wsStar, .tok (.lit 'S'), .tok (.lit ')')]

/-- `Coordenadas y\s*\(Longitud\s*-\s*O\)`. -/
def lonLabelPat : List Item :=
  litsI "Coordenadas y" ++ [wsStar, .tok (.lit '(')] ++ litsI "Longitud" ++
  [wsStar, .tok (.lit '-'), wsStar, .tok (.lit 'O'), .tok (.lit ')')]

/-- `Volumen\s+m3?\s+derramado\s+([\d.,]+)`. -/
def volDPat : List Item :=
  litsI "Volumen" ++ [.tok (.plus isPyWs), .tok (.lit 'm'), .tok (.opt '3'),
  .tok (.plus isPyWs)] ++ litsI "derramado" ++
  [.tok (.plus isPyWs), .grp [.plus isDigitDotComma]]

/-- `%\s*AGUA\s+DERRAMADO\s+([\d.,]+)` (note the final `O` of
`DERRAMADO`). -/
def aguaPat : List Item :=
  [.tok (.lit '%'), wsStar] ++ litsI "AGUA" ++ [.tok (.plus isPyWs)] ++
  litsI "DERRAMADO" ++ [.tok (.plus isPyWs), .grp [.plus isDigitDotComma]]

/-- The fields of `PetSudExtractor.extract` the end-to-end property
speaks about; each `data[...]` assignment in the source is independent of
the others, so the remaining (string-copy) fields are not modelled. -/
structure PetSudRecord where
  NUM_INC : Option String
  Y_COORD : Option ℚ
  X_COORD : Option ℚ
  VOL_D_m3 : Option ℚ
  AGUA_PCT : Option ℚ
deriving DecidableEq, Repr

/-- `PetSudExtractor.extract`, restricted to those fields: the incident
number gets the `PETSUD-` prefix, both coordinates go through the
accumulation scanner and `_parse_and_negate`, the volumes and water
percentage through `_find_float`; the `validate_coordinates` call only
logs.  A `ValueError` escaping `_parse_and_negate` propagates. -/
def petsudExtract (text : List Char) : Except Unit PetSudRecord :=
  let num_inc := pyFind numIncPat text
  let lat_raw := extractCoordRaw latLabelPat text
  let lon_raw := extractCoordRaw lonLabelPat text
  match parseAndNegate lat_raw, parseAndNegate lon_raw with
  | .ok lat_dd, .ok lon_dd =>
    let _logOnly := validate_coordinates lat_dd lon_dd
    .ok { NUM_INC :=
            match num_inc with
            | some n => if n = [] then none else some (String.mk ("PETSUD-".data ++ n))
            | none => none,
          Y_COORD := lat_dd,
          X_COORD := lon_dd,
          VOL_D_m3 := pyFindFloat volDPat text,
          AGUA_PCT := pyFindFloat aguaPat text }
  | .error e, _ => .error e
  | _, .error e => .error e

/-- The PetSud sample text block (`tests/conftest.py`, fixture
`petsud_text`). -/
def petsudText : String :=
  "N° DE COMUNICADO 999\n" ++
  "Fecha de ocurrencia 12/2/2026\n" ++
  "Hora de ocurrencia 15:00hs\n" ++
  "Operador Petróleos Sudamericanos\n" ++
  "Área operativa / concesión Área Ficticia Sur\n" ++
  "Yacimiento Punta Mock\n" ++
  "Cuenca Cuyana\n" ++
  "Provincia Mendoza\n" ++
  "Tipo de permiso Explotación\n" ++
  "Instalación asociada Acueducto N°9 Mock\n" ++
  "Tipo de instalación cañería inyeccion MOCK-191\n" ++
  "Subtipo de incidente Crudo\n" ++
  "Tipo de evento causante Falla de Materiales - Corrosión\n" ++
  "Magnitud del Incidente Menor\n" ++
  "Descripción de la rotura y afectación\n" ++
  "La perdida se produce en Cañería conduccion MOCK-191, afecta locacion simulada.\n" ++
  "Coordenadas x (latitud - S) 33°30'00,00\"\n" ++
  "Coordenadas y (Longitud - O) 68°38'00,00\"\n" ++
  "Concentración de hidrocarburo (ppm) Menor a 50ppm\n" ++
  "Volumen m3 derramado 7\n" ++
  "% AGUA DERRAMADA 100"

deriving instance DecidableEq for Except

/-! ## Helper lemmas -/

/-- Evaluation lemma for `pyFloat`: supply the guard, the two digit-string
values and the fraction length, and the resulting rational. -/
theorem pyFloat_eval (s : List Char) (q : ℚ) (ipn fpn fl : ℕ)
    (hok : s ≠ [] ∧ s.all (fun c => isPyDigit c || c = '.')
      ∧ (s.filter (fun c => c = '.')).length ≤ 1
      ∧ 1 ≤ (s.filter isPyDigit).length)
    (h1 : natOfDigits (s.takeWhile (fun c => c ≠ '.')) = ipn)
    (h2 : natOfDigits ((s.dropWhile (fun c => c ≠ '.')).drop 1) = fpn)
    (h3 : ((s.dropWhile (fun c => c ≠ '.')).drop 1).length = fl)
    (hq : (ipn : ℚ) + (fpn : ℚ) / (10 : ℚ) ^ fl = q) :
    pyFloat s = some q := by
  rw [pyFloat, if_pos hok, h1, h2, h3, hq]

/-- Any value `float()` returns on these digit/dot strings is nonnegative
(there is no sign to parse). -/
theorem pyFloat_nonneg (s : List Char) (q : ℚ) (h : pyFloat s = some q) : 0 ≤ q := by
  rw [pyFloat] at h
  split_ifs at h with hc
  obtain rfl : _ = q := Option.some.injEq _ _ |>.mp h
  positivity

/-- Rounding at six decimals keeps nonpositive values nonpositive. -/
theorem round6_nonpos (q : ℚ) (h : q ≤ 0) : round6 q ≤ 0 := by
  rw [round6]
  have h1 : q * 1000000 ≤ 0 := mul_nonpos_of_nonpos_of_nonneg h (by norm_num)
  have h2 : round (q * 1000000) ≤ 0 := by
    rw [round_eq]
    calc ⌊q * 1000000 + 1 / 2⌋ ≤ ⌊(1 / 2 : ℚ)⌋ := Int.floor_mono (by linarith)
      _ = 0 := by norm_num
  have h3 : ((round (q * 1000000) : ℤ) : ℚ) ≤ 0 := by exact_mod_cast h2
  rw [div_eq_mul_inv]
  exact mul_nonpos_of_nonpos_of_nonneg h3 (by norm_num)

/-- With the default hemisphere `"S"`, `dms_to_dd` of nonnegative fields
is nonpositive. -/
theorem dms_to_dd_default_nonpos (d m s : ℚ) (hd : 0 ≤ d) (hm : 0 ≤ m)
    (hs : 0 ≤ s) : dms_to_dd d m s ≤ 0 := by
  rw [dms_to_dd, if_pos (Or.inl (by decide))]
  apply round6_nonpos
  have hsum : 0 ≤ d + m / 60 + s / 3600 := by positivity
  linarith

/-- Evaluation lemma for `dms_to_dd` at the default hemisphere: supply the
rounded integer with its bracketing inequalities. -/
theorem dms_to_dd_default_eval (d m s q : ℚ) (r : ℤ)
    (h1 : (r : ℚ) ≤ -(d + m / 60 + s / 3600) * 1000000 + 1 / 2)
    (h2 : -(d + m / 60 + s / 3600) * 1000000 + 1 / 2 < r + 1)
    (hq : (r : ℚ) / 1000000 = q) :
    dms_to_dd d m s = q := by
  rw [dms_to_dd, if_pos (Or.inl (by decide)), round6]
  have : round (-(d + m / 60 + s / 3600) * 1000000) = r := by
    rw [round_eq]
    exact Int.floor_eq_iff.mpr ⟨h1, by linarith⟩
  rw [this, hq]

/-- Claim C5: the magnitude-inference fallback returns exactly
"No determinado" on an unknown volume; with unknown PPM, "Mayor" iff the
volume exceeds 5 (else "Menor"); with PPM above 50 the same 5 m3
threshold; with PPM at most 50 the 10 m3 threshold. -/
theorem C5_infer_magnitude_cases (vol ppm : Option ℚ) :
    (vol = none → inferir_magnitud vol ppm = "No determinado") ∧
    (∀ v, vol = some v →
      (ppm = none → inferir_magnitud vol ppm = (if 5 < v then "Mayor" else "Menor")) ∧
      (∀ p, ppm = some p →
        (50 < p → inferir_magnitud vol ppm = (if 5 < v then "Mayor" else "Menor")) ∧
        (p ≤ 50 → inferir_magnitud vol ppm = (if 10 < v then "Mayor" else "Menor")))) := by
  refine ⟨fun h => by rw [h]; rfl, fun v hv => ⟨fun hp => by rw [hv, hp]; rfl, fun p hp => ⟨fun h50 => ?_, fun h50 => ?_⟩⟩⟩
  · rw [hv, hp]; simp only [inferir_magnitud, if_pos h50]
  · rw [hv, hp]; simp only [inferir_magnitud, if_neg (not_lt.mpr h50)]

/-- Witness for C5 at the spec's four sample points. -/
theorem C5_infer_magnitude_cases_witness :
    inferir_magnitud (some 6) (some 60) = "Mayor" ∧
    inferir_magnitud (some 6) (some 20) = "Menor" ∧
    inferir_magnitud (some 11) (some 20) = "Mayor" ∧
    inferir_magnitud none none = "No determinado" := by
  refine ⟨?_, ?_, ?_, ?_⟩
  · rw [(((C5_infer_magnitude_cases (some 6) (some 60)).2 6 rfl).2 60 rfl).1 (by norm_num),
      if_pos (by norm_num : (5 : ℚ) < 6)]
  · rw [(((C5_infer_magnitude_cases (some 6) (some 20)).2 6 rfl).2 20 rfl).2 (by norm_num),
      if_neg (by norm_num : ¬ (10 : ℚ) < 6)]
  · rw [(((C5_infer_magnitude_cases (some 11) (some 20)).2 11 rfl).2 20 rfl).2 (by norm_num),
      if_pos (by norm_num : (10 : ℚ) < 11)]
  · exact (C5_infer_magnitude_cases none none).1 rfl

/-- Claim C9: `validate_coordinates` is false on any `None` argument and
otherwise true exactly inside the inclusive regional box
(-39..-32, -70..-67); the dropped-leading-digit latitude -3.742 is
rejected. -/
theorem C9_validate_coordinates_box :
    (∀ lat lon : Option ℚ, validate_coordinates lat lon = true ↔
      ∃ a b, lat = some a ∧ lon = some b ∧
        -39 ≤ a ∧ a ≤ -32 ∧ -70 ≤ b ∧ b ≤ -67) ∧
    validate_coordinates (some (-3742/1000)) (some (-684/10)) = false := by
  constructor
  · intro lat lon
    cases lat with
    | none => simp [validate_coordinates]
    | some a =>
      cases lon with
      | none => simp [validate_coordinates]
      | some b =>
        simp [validate_coordinates, LAT_MIN, LAT_MAX, LON_MIN, LON_MAX, and_assoc]
  · simp only [validate_coordinates, LAT_MIN, LAT_MAX, LON_MIN, LON_MAX,
      decide_eq_false_iff_not]
    intro h
    have := h.2.1
    norm_num at this

/-- Witness for C9 at an in-box coordinate pair. -/
theorem C9_validate_coordinates_box_witness :
    validate_coordinates (some (-37)) (some (-68)) = true :=
  (C9_validate_coordinates_box.1 (some (-37)) (some (-68))).mpr
    ⟨-37, -68, rfl, rfl, by norm_num, by norm_num, by norm_num, by norm_num⟩

/-- Claim C1 (code bug): on a record whose coordinates fail the regional
check, the effective `validate_data` does not return `False` — its error
branch raises `NameError` because the log f-string references the
undefined name `loat`; on valid coordinates it returns `True` even when
the recovered volume exceeds the spilled volume. -/
theorem C1_validate_data_raises :
    validate_data ⟨some "PETSUD-999", none, none, some 1, some 2⟩ =
      .error "NameError: name loat is not defined" ∧
    validate_data ⟨some "PETSUD-999", some (-335/10), some (-69), some 1, some 2⟩ =
      .ok true := by
  constructor
  · rfl
  · have hv : validate_coordinates (some (-335/10)) (some (-69)) = true := by
      simp only [validate_coordinates, decide_eq_true_eq, LAT_MIN, LAT_MAX, LON_MIN, LON_MAX]
      norm_num
    rw [validate_data]
    simp [hv]

/-- Claim C3 (code bug): the degrees/decimal-minutes string with slash
separator matches none of the three shapes (the slash shape demands a
third numeric field), so `parse_dms_string` returns `None` rather than a
value near 37.3489. -/
theorem C3_slash_decimal_minutes_unparsed :
    parse_dms_string (some "37 ° / 20.936 '") = .ok none := by decide

/-- Claim C7: for every pattern, text and group index, `_find` returns
the requested capture group stripped of whitespace when the pattern
matches and the group exists, the stripped full match when the group
index does not exist (the caught `IndexError`), and `None` when there is
no match; as a total function it never raises on a missing match. -/
theorem C7_find_contract (ci : Bool) (pat : List Item) (text : List Char) (g : Nat) :
    (reSearch ci pat text = none → pyFind pat text g ci = none) ∧
    (∀ m, reSearch ci pat text = some m →
      ((g = 0 → pyFind pat text g ci = some (pyStrip m.matched)) ∧
       (∀ gs, g ≠ 0 → m.groups[g - 1]? = some gs →
          pyFind pat text g ci = some (pyStrip gs)) ∧
       (g ≠ 0 → m.groups[g - 1]? = none →
          pyFind pat text g ci = some (pyStrip m.matched)))) := by
  refine ⟨fun h => by simp [pyFind, h], fun m hm => ⟨?_, ?_, ?_⟩⟩
  · rintro rfl
    simp [pyFind, hm]
  · intro gs hg hgs
    simp [pyFind, hm, hg, hgs]
  · intro hg hnone
    simp [pyFind, hm, hg, hnone]

/-- Witness for C7: a one-group digit pattern on a small text, with an
existing and a nonexistent group index. -/
theorem C7_find_contract_witness :
    pyFind [Item.grp [Tok.plus isPyDigit]] "ab 12cd".data 1 true = some ['1', '2'] ∧
    pyFind [Item.grp [Tok.plus isPyDigit]] "ab 12cd".data 5 true = some ['1', '2'] := by
  have hm : reSearch true [Item.grp [Tok.plus isPyDigit]] "ab 12cd".data =
      some ⟨3, ['1', '2'], [['1', '2']]⟩ := by decide
  constructor
  · exact (((C7_find_contract true [Item.grp [Tok.plus isPyDigit]] "ab 12cd".data 1).2
      ⟨3, ['1', '2'], [['1', '2']]⟩ hm).2.1 ['1', '2'] (by decide) (by decide)).trans (by decide)
  · exact (((C7_find_contract true [Item.grp [Tok.plus isPyDigit]] "ab 12cd".data 5).2
      ⟨3, ['1', '2'], [['1', '2']]⟩ hm).2.2 (by decide) (by decide)).trans (by decide)

/-- Claim C8: `transform_to_cartesian` fails with `ValueError` exactly
when a coordinate is `None` or outside the global bounds; every in-bounds
pair is converted by the selected backend without raising. -/
theorem C8_transform_cartesian_guard (backend : ℚ → ℚ → ℤ → ℚ × ℚ)
    (lat lon : Option ℚ) :
    ((∃ msg, transform_to_cartesian backend lat lon = .error msg) ↔
      (lat = none ∨ lon = none ∨
       (∃ a, lat = some a ∧ (a < -90 ∨ 90 < a)) ∨
       (∃ b, lon = some b ∧ (b < -180 ∨ 180 < b)))) ∧
    (∀ a b, lat = some a → lon = some b →
      -90 ≤ a → a ≤ 90 → -180 ≤ b → b ≤ 180 →
      transform_to_cartesian backend lat lon = .ok (backend a b (_detect_utm_zone b))) := by
  constructor
  · cases lat with
    | none => simp [transform_to_cartesian]
    | some a =>
      cases lon with
      | none => simp [transform_to_cartesian]
      | some b =>
        by_cases h : -90 ≤ a ∧ a ≤ 90 ∧ -180 ≤ b ∧ b ≤ 180
        · rw [transform_to_cartesian, if_neg (not_not_intro h)]
          simp only [Option.some.injEq]
          constructor
          · rintro ⟨msg, hmsg⟩
            exact absurd hmsg (by simp)
          · rintro (h1 | h1 | ⟨a', rfl, h1⟩ | ⟨b', rfl, h1⟩)
            · exact absurd h1 (by simp)
            · exact absurd h1 (by simp)
            · rcases h1 with h1 | h1
              · exact absurd h1 (not_lt.mpr h.1)
              · exact absurd h1 (not_lt.mpr h.2.1)
            · rcases h1 with h1 | h1
              · exact absurd h1 (not_lt.mpr h.2.2.1)
              · exact absurd h1 (not_lt.mpr h.2.2.2)
        · rw [transform_to_cartesian, if_pos h]
          refine iff_of_true ⟨_, rfl⟩ ?_
          have hd : a < -90 ∨ 90 < a ∨ b < -180 ∨ 180 < b := by
            by_contra hc
            push_neg at hc
            exact h ⟨hc.1, hc.2.1, hc.2.2.1, hc.2.2.2⟩
          rcases hd with h1 | h1 | h1 | h1
          · exact Or.inr (Or.inr (Or.inl ⟨a, rfl, Or.inl h1⟩))
          · exact Or.inr (Or.inr (Or.inl ⟨a, rfl, Or.inr h1⟩))
          · exact Or.inr (Or.inr (Or.inr ⟨b, rfl, Or.inl h1⟩))
          · exact Or.inr (Or.inr (Or.inr ⟨b, rfl, Or.inr h1⟩))
  · rintro a b rfl rfl h1 h2 h3 h4
    rw [transform_to_cartesian, if_neg (not_not_intro ⟨h1, h2, h3, h4⟩)]

/-- Witness for C8 at an in-bounds pair with a trivial backend. -/
theorem C8_transform_cartesian_guard_witness :
    transform_to_cartesian (fun _ _ _ => (0, 0)) (some (-37)) (some (-68)) = .ok (0, 0) :=
  (C8_transform_cartesian_guard (fun _ _ _ => (0, 0)) (some (-37)) (some (-68))).2
    (-37) (-68) rfl rfl (by norm_num) (by norm_num) (by norm_num) (by norm_num)

/-- Claim C6: `normalize_date` maps `None` to `None` and otherwise equals
the spec's contract — trim, try `dd/mm/yyyy`, `dd/mm/yy`, `dd-mm-yyyy`,
`dd-mm-yy`, `yyyy-mm-dd` in that fixed order, render the first success as
`dd-mm-yyyy`, and yield `None` (never an exception) when nothing
matches. -/
theorem C6_normalize_date_contract :
    normalize_date none = none ∧
    ∀ raw : String, normalize_date (some raw) = normalizeDateSpecModel (some raw) := by
  refine ⟨rfl, fun raw => ?_⟩
  simp only [normalize_date, normalizeDateSpecModel, DATE_FORMATS]
  cases h1 : (pyStrptime DateFmt.dmySlash4 (pyStrip raw.data)).map renderDMY with
  | some r => simp [List.findSome?_cons, h1]
  | none =>
    cases h2 : (pyStrptime DateFmt.dmySlash2 (pyStrip raw.data)).map renderDMY with
    | some r => simp [List.findSome?_cons, h1, h2]
    | none =>
      cases h3 : (pyStrptime DateFmt.dmyDash4 (pyStrip raw.data)).map renderDMY with
      | some r => simp [List.findSome?_cons, h1, h2, h3]
      | none =>
        cases h4 : (pyStrptime DateFmt.dmyDash2 (pyStrip raw.data)).map renderDMY with
        | some r => simp [List.findSome?_cons, h1, h2, h3, h4]
        | none =>
          simp only [List.findSome?_cons, List.findSome?_nil, h1, h2, h3, h4]
          cases h5 : (pyStrptime DateFmt.iso (pyStrip raw.data)).map renderDMY with
          | some r => simp [h5]
          | none => simp [h5]

/-- Claim C2 (code bug): on the compact DMS string the parser matches
shape (a) but, passing no hemisphere, inherits `dms_to_dd`'s default
`"S"` and returns -33.516006 — the negation of the value near 33.516
that the spec (and the repository's own test) expects. -/
theorem C2_parse_dms_negative :
    parse_dms_string (some "33°30'57,62\"") = .ok (some (-33516006/1000000)) ∧
    ¬ |(-33516006/1000000 : ℚ) - 33.516| < 1/1000 := by
  constructor
  · have hn : normalizeDmsSymbols (collapseRuns (pyStrip ("33°30'57,62\"").data)) =
        ("33°30'57.62\"").data := by decide
    have hm : reMatchAt false dmsPatFull ("33°30'57.62\"").data =
        some ([], [['3', '3'], ['3', '0'], ['5', '7', '.', '6', '2']]) := by decide
    simp only [parse_dms_string, hn, hm]
    rw [dmsOfCaps3,
      pyFloat_eval ['3', '3'] 33 33 0 0 (by decide) (by decide) (by decide) (by decide)
        (by norm_num),
      pyFloat_eval ['3', '0'] 30 30 0 0 (by decide) (by decide) (by decide) (by decide)
        (by norm_num),
      pyFloat_eval ['5', '7', '.', '6', '2'] (2881/50) 57 62 2 (by decide) (by decide)
        (by decide) (by decide) (by norm_num)]
    show Except.ok (some (dms_to_dd 33 30 (2881/50))) = _
    rw [dms_to_dd_default_eval 33 30 (2881/50) (-33516006/1000000) (-33516006)
      (by norm_num) (by norm_num) (by norm_num)]
  · rw [abs_lt]
    push_neg
    intro h
    norm_num at h

/-- Any value produced from a three-group DMS match (default hemisphere)
is nonpositive. -/
theorem dmsOfCaps3_nonpos (caps : List (List Char)) (q : ℚ)
    (h : dmsOfCaps3 caps = .ok (some q)) : q ≤ 0 := by
  rw [dmsOfCaps3.eq_def] at h
  split at h
  · split at h
    · rename_i d m s hd hm hs
      obtain rfl : dms_to_dd d m s = q := by simpa using h
      exact dms_to_dd_default_nonpos d m s (pyFloat_nonneg _ _ hd)
        (pyFloat_nonneg _ _ hm) (pyFloat_nonneg _ _ hs)
    · simp at h
  · simp at h

/-- Any value produced from a two-group DMS match (default hemisphere,
zero seconds) is nonpositive. -/
theorem dmsOfCaps2_nonpos (caps : List (List Char)) (q : ℚ)
    (h : dmsOfCaps2 caps = .ok (some q)) : q ≤ 0 := by
  rw [dmsOfCaps2.eq_def] at h
  split at h
  · split at h
    · rename_i d m hd hm
      obtain rfl : dms_to_dd d m = q := by simpa using h
      exact dms_to_dd_default_nonpos d m 0 (pyFloat_nonneg _ _ hd)
        (pyFloat_nonneg _ _ hm) le_rfl
    · simp at h
  · simp at h

/-- Claim C10: whenever `parse_dms_string` returns a float rather than
`None`, that float is nonpositive — the parser never passes a hemisphere,
so the default `"S"` negates every parsed magnitude. -/
theorem C10_parse_dms_nonpositive (raw : Option String) (q : ℚ)
    (h : parse_dms_string raw = .ok (some q)) : q ≤ 0 := by
  cases raw with
  | none => simp [parse_dms_string] at h
  | some str =>
    simp only [parse_dms_string] at h
    split at h
    · exact dmsOfCaps3_nonpos _ _ h
    · split at h
      · exact dmsOfCaps2_nonpos _ _ h
      · split at h
        · exact dmsOfCaps3_nonpos _ _ h
        · simp at h

/-- Witness for C10 at a concrete DMS string. -/
theorem C10_parse_dms_nonpositive_witness :
    parse_dms_string (some "1°2'3\"") = .ok (some (-1034167/1000000)) ∧
    (-1034167/1000000 : ℚ) ≤ 0 := by
  have hp : parse_dms_string (some "1°2'3\"") = .ok (some (-1034167/1000000)) := by
    have hn : normalizeDmsSymbols (collapseRuns (pyStrip ("1°2'3\"").data)) =
        ("1°2'3\"").data := by decide
    have hm : reMatchAt false dmsPatFull ("1°2'3\"").data =
        some ([], [['1'], ['2'], ['3']]) := by decide
    simp only [parse_dms_string, hn, hm]
    rw [dmsOfCaps3,
      pyFloat_eval ['1'] 1 1 0 0 (by decide) (by decide) (by decide) (by decide)
        (by norm_num),
      pyFloat_eval ['2'] 2 2 0 0 (by decide) (by decide) (by decide) (by decide)
        (by norm_num),
      pyFloat_eval ['3'] 3 3 0 0 (by decide) (by decide) (by decide) (by decide)
        (by norm_num)]
    show Except.ok (some (dms_to_dd 1 2 3)) = _
    rw [dms_to_dd_default_eval 1 2 3 (-1034167/1000000) (-1034167)
      (by norm_num) (by norm_num) (by norm_num)]
  exact ⟨hp, C10_parse_dms_nonpositive (some "1°2'3\"") _ hp⟩

set_option maxRecDepth 8000
set_option maxHeartbeats 4000000

/-- Claim C4 (code bug): on the PetSud sample text the extractor yields
`NUM_INC = "PETSUD-999"`, coordinates -33.5 and -68.633333 (both negative
and inside the regional box) and `VOL_D_m3 = 7.0`, but `AGUA_PCT` comes
out `None`, not 100.0: the pattern spells `DERRAMADO` while the sample
(and the repository's own test fixture) says `DERRAMADA`. -/
theorem C4_petsud_extract_fields :
    petsudExtract petsudText.data =
      .ok ⟨some "PETSUD-999", some (-67/2), some (-68633333/1000000), some 7, none⟩ ∧
    validate_coordinates (some (-67/2)) (some (-68633333/1000000)) = true ∧
    (-67/2 : ℚ) < 0 ∧ (-68633333/1000000 : ℚ) < 0 := by
  have hnum : pyFind numIncPat petsudText.data 1 true = some ['9', '9', '9'] := by decide
  have hlat : extractCoordRaw latLabelPat petsudText.data =
      some ("33°30'00,00\"".data) := by decide
  have hlon : extractCoordRaw lonLabelPat petsudText.data =
      some ("68°38'00,00\"".data) := by decide
  have hvolf : pyFind volDPat petsudText.data 1 true = some ['7'] := by decide
  have haguaf : pyFind aguaPat petsudText.data 1 true = none := by decide
  have hvol : pyFindFloat volDPat petsudText.data 1 true = some 7 := by
    simp only [pyFindFloat, hvolf]
    have hc : commaToDot ['7'] = ['7'] := by decide
    rw [hc, pyFloat_eval ['7'] 7 7 0 0 (by decide) (by decide) (by decide) (by decide)
      (by norm_num)]
  have hagua : pyFindFloat aguaPat petsudText.data 1 true = none := by
    simp [pyFindFloat, haguaf]
  have hplat : parse_dms_string (some (String.mk ("33°30'00,00\"".data))) =
      .ok (some (-67/2)) := by
    have hn : normalizeDmsSymbols (collapseRuns (pyStrip
        (String.mk ("33°30'00,00\"".data)).data)) = ("33°30'00.00\"").data := by decide
    have hm : reMatchAt false dmsPatFull ("33°30'00.00\"").data =
        some ([], [['3', '3'], ['3', '0'], ['0', '0', '.', '0', '0']]) := by decide
    simp only [parse_dms_string, hn, hm]
    rw [dmsOfCaps3,
      pyFloat_eval ['3', '3'] 33 33 0 0 (by decide) (by decide) (by decide) (by decide)
        (by norm_num),
      pyFloat_eval ['3', '0'] 30 30 0 0 (by decide) (by decide) (by decide) (by decide)
        (by norm_num),
      pyFloat_eval ['0', '0', '.', '0', '0'] 0 0 0 2 (by decide) (by decide) (by decide)
        (by decide) (by norm_num)]
    show Except.ok (some (dms_to_dd 33 30 0)) = _
    rw [dms_to_dd_default_eval 33 30 0 (-67/2) (-33500000)
      (by norm_num) (by norm_num) (by norm_num)]
  have hplon : parse_dms_string (some (String.mk ("68°38'00,00\"".data))) =
      .ok (some (-68633333/1000000)) := by
    have hn : normalizeDmsSymbols (collapseRuns (pyStrip
        (String.mk ("68°38'00,00\"".data)).data)) = ("68°38'00.00\"").data := by decide
    have hm : reMatchAt false dmsPatFull ("68°38'00.00\"").data =
        some ([], [['6', '8'], ['3', '8'], ['0', '0', '.', '0', '0']]) := by decide
    simp only [parse_dms_string, hn, hm]
    rw [dmsOfCaps3,
      pyFloat_eval ['6', '8'] 68 68 0 0 (by decide) (by decide) (by decide) (by decide)
        (by norm_num),
      pyFloat_eval ['3', '8'] 38 38 0 0 (by decide) (by decide) (by decide) (by decide)
        (by norm_num),
      pyFloat_eval ['0', '0', '.', '0', '0'] 0 0 0 2 (by decide) (by decide) (by decide)
        (by decide) (by norm_num)]
    show Except.ok (some (dms_to_dd 68 38 0)) = _
    rw [dms_to_dd_default_eval 68 38 0 (-68633333/1000000) (-68633333)
      (by norm_num) (by norm_num) (by norm_num)]
  have hpalat : parseAndNegate (some ("33°30'00,00\"".data)) = .ok (some (-67/2)) := by
    simp only [parseAndNegate, hplat]
    have : -|(-67/2 : ℚ)| = -67/2 := by rw [abs_of_nonpos (by norm_num)]; ring
    rw [this]
  have hpalon : parseAndNegate (some ("68°38'00,00\"".data)) =
      .ok (some (-68633333/1000000)) := by
    simp only [parseAndNegate, hplon]
    have : -|(-68633333/1000000 : ℚ)| = -68633333/1000000 := by
      rw [abs_of_nonpos (by norm_num)]; ring
    rw [this]
  refine ⟨?_, ?_, by norm_num, by norm_num⟩
  · simp only [petsudExtract, hnum, hlat, hlon, hpalat, hpalon, hvol, hagua]
    have : String.mk ("PETSUD-".data ++ ['9', '9', '9']) = "PETSUD-999" := by decide
    simp [this]
  · simp only [validate_coordinates, decide_eq_true_eq, LAT_MIN, LAT_MAX, LON_MIN, LON_MAX]
    norm_num
